import Mathlib

/-!
Verification development for the table-se-scraper-suite repository.

The Python modules of the scraper core are shallowly embedded:

* `exclusions.py`            → `EXCLUDED_URL_PREFIXES`, `is_excluded`
* `scraper/utils.py`         → `normalize_whitespace`, `strip_html`, `validate_url`,
                               `parse_value_unit`
* `scraper/product.py`       → `parse_price_string`, `price_format`, `scrapeData`,
                               `scrape_product_core`
* `scraper/cache.py`         → `Cache.get`, `Cache.set`, `Cache.load_cache`
* `src/product_cache.py`     → `ProductCache.update_cache`
* `scraper/category.py`      → `parseMenuUl`, `extract_category_tree`
* `scraper/fetch.py`         → `fetch_url` (attempt loop)
* `scraper/scanner.py`       → `validate_product`, `detect_anomalies`, `scan_products`

Python's loosely typed dictionary values are modelled by `PyVal` (either the
`None` singleton or a string); numeric work that Python does on IEEE floats is
modelled exactly over `PyRat`, a normalized rational type whose operations
reduce inside the kernel (every comparison appearing in a theorem below has a
margin that makes the exact and the floating computation agree).  Side effects are
made explicit: the persistent cache state is passed and returned, log output is
returned as a list of messages, and the fetcher's network interaction is a
function from attempt number to outcome.
-/

/-- A Python dictionary value as it occurs in the scraper's records:
either `None` or a string. -/
inductive PyVal where
  | none : PyVal
  | str : String → PyVal
deriving DecidableEq, Repr

/-- A product record: a Python dict from string keys to `PyVal`,
modelled as an insertion-ordered association list. -/
abbrev PyRecord := List (String × PyVal)

/-- First value bound to key `k` (Python `d.get(k)` without default). -/
def assocGet {β : Type _} (l : List (String × β)) (k : String) : Option β :=
  match l with
  | [] => Option.none
  | (k', v) :: rest => if k' = k then some v else assocGet rest k

/-- Python `d[k] = v` on an insertion-ordered dict: replace in place if the
key is present, otherwise append at the end. -/
def assocSet {β : Type _} (l : List (String × β)) (k : String) (v : β) : List (String × β) :=
  match l with
  | [] => [(k, v)]
  | (k', v') :: rest => if k' = k then (k', v) :: rest else (k', v') :: assocSet rest k v

/-- Python `d.setdefault(k, []).append(msg)`. -/
def assocAppend (l : List (String × List String)) (k : String) (msg : String) :
    List (String × List String) :=
  match l with
  | [] => [(k, [msg])]
  | (k', v') :: rest =>
      if k' = k then (k', v' ++ [msg]) :: rest else (k', v') :: assocAppend rest k msg

/-- Python `str(v)` on a dict value. -/
def pyStr : PyVal → String
  | PyVal.none => "None"
  | PyVal.str s => s

/-- Python `d.get(k, default)`. -/
def pyGetD (p : PyRecord) (k : String) (d : PyVal) : PyVal :=
  (assocGet p k).getD d

/-- Python truthiness of `d.get(k)`: false for a missing key, for `None`
and for the empty string. -/
def truthyGet (p : PyRecord) (k : String) : Bool :=
  match assocGet p k with
  | Option.none => false
  | some PyVal.none => false
  | some (PyVal.str s) => s ≠ ""

/-! ### String primitives

Lean core's `String` operations are implemented against byte positions and do
not reduce inside the kernel; the embedding therefore uses these list-based
equivalents (same semantics on the inputs occurring here) so that every
definition evaluates by `decide`. -/

/-- List-prefix test. -/
def isPreList : List Char → List Char → Bool
  | [], _ => true
  | _ :: _, [] => false
  | a :: as, b :: bs => a = b && isPreList as bs

/-- Does `pat` occur at some position of the list? -/
def occursIn (pat : List Char) : List Char → Bool
  | [] => pat.isEmpty
  | c :: rest => isPreList pat (c :: rest) || occursIn pat rest

/-- Python `s.strip()` / Lean `String.trim`. -/
def strTrim (s : String) : String :=
  String.mk (((s.toList.dropWhile Char.isWhitespace).reverse.dropWhile
    Char.isWhitespace).reverse)

/-- Python `s.startswith(p)` / Lean `String.startsWith`. -/
def strStartsWith (s p : String) : Bool :=
  isPreList p.toList s.toList

/-- Python `s.endswith(p)` / Lean `String.endsWith`. -/
def strEndsWith (s p : String) : Bool :=
  isPreList p.toList.reverse s.toList.reverse

/-- `String.takeWhile`. -/
def strTakeWhile (s : String) (f : Char → Bool) : String :=
  String.mk (s.toList.takeWhile f)

/-- `String.dropWhile`. -/
def strDropWhile (s : String) (f : Char → Bool) : String :=
  String.mk (s.toList.dropWhile f)

/-- `String.drop`. -/
def strDrop (s : String) (n : Nat) : String :=
  String.mk (s.toList.drop n)

/-- Length in characters. -/
def strLen (s : String) : Nat :=
  s.toList.length

/-- Does the string contain the character? -/
def strContainsChar (s : String) (c : Char) : Bool :=
  s.toList.any (fun x => x = c)

/-- Replacement loop of `str.replace` (all non-overlapping occurrences,
left to right); the fuel is the input length, each step consumes at least
one character (`pat` is never empty at the call sites). -/
def strReplaceGo (pat rep : List Char) : Nat → List Char → List Char
  | 0, cs => cs
  | _ + 1, [] => []
  | fuel + 1, c :: rest =>
      if isPreList pat (c :: rest) then
        rep ++ strReplaceGo pat rep fuel ((c :: rest).drop pat.length)
      else
        c :: strReplaceGo pat rep fuel rest

/-- Python `s.replace(pat, rep)` / Lean `String.replace` for `pat ≠ ""`. -/
def strReplace (s pat rep : String) : String :=
  if pat = "" then s
  else String.mk (strReplaceGo pat.toList rep.toList s.toList.length s.toList)

/-- The digits of a decimal string as a natural number (helper for the
model of Python's `float`). -/
def digitsToNat (s : String) : Nat :=
  s.toList.foldl (fun a c => a * 10 + (c.toNat - Char.toNat '0')) 0

/-! ### Exact rationals

The model of Python's float values.  All operations keep `num/den` in lowest
terms with `den > 0`, so equality is structural and everything evaluates by
`decide` (Lean core's `Rat` primitives are opaque to the kernel). -/

/-- An exact rational: the model of a Python float. -/
structure PyRat where
  num : Int
  den : Nat
deriving DecidableEq, Repr

namespace PyRat

/-- Normalize a fraction to lowest terms with a positive denominator. -/
def normalize (n : Int) (d : Nat) : PyRat :=
  if d = 0 then ⟨0, 1⟩
  else
    let g := Nat.gcd n.natAbs d
    ⟨n / (g : Int), d / g⟩

instance : OfNat PyRat n := ⟨⟨(n : Int), 1⟩⟩

instance : OfScientific PyRat :=
  ⟨fun m b e => if b then normalize (m : Int) (10 ^ e) else ⟨(m : Int) * 10 ^ e, 1⟩⟩

instance : Neg PyRat := ⟨fun a => ⟨-a.num, a.den⟩⟩

instance : Add PyRat :=
  ⟨fun a b => normalize (a.num * (b.den : Int) + b.num * (a.den : Int)) (a.den * b.den)⟩

instance : Sub PyRat :=
  ⟨fun a b => normalize (a.num * (b.den : Int) - b.num * (a.den : Int)) (a.den * b.den)⟩

instance : Mul PyRat := ⟨fun a b => normalize (a.num * b.num) (a.den * b.den)⟩

/-- Reciprocal (unused on zero). -/
def inv (a : PyRat) : PyRat :=
  if a.num < 0 then ⟨-(a.den : Int), a.num.natAbs⟩ else ⟨(a.den : Int), a.num.natAbs⟩

instance : Div PyRat := ⟨fun a b => a * inv b⟩

instance : LE PyRat := ⟨fun a b => a.num * (b.den : Int) ≤ b.num * (a.den : Int)⟩

instance : LT PyRat := ⟨fun a b => a.num * (b.den : Int) < b.num * (a.den : Int)⟩

instance (a b : PyRat) : Decidable (a ≤ b) :=
  inferInstanceAs (Decidable (a.num * (b.den : Int) ≤ b.num * (a.den : Int)))

instance (a b : PyRat) : Decidable (a < b) :=
  inferInstanceAs (Decidable (a.num * (b.den : Int) < b.num * (a.den : Int)))

/-- Absolute value. -/
def abs (a : PyRat) : PyRat := ⟨|a.num|, a.den⟩

end PyRat

/-- Model of Python `float(s)`: strip whitespace, optional sign, a run of
digits with at most one decimal point, the whole string consumed.
(The exponent and `inf`/`nan` forms never occur in this repository's data
and are not modelled.)  Returns the exact rational value. -/
def pyFloat (s : String) : Option PyRat :=
  let t := strTrim s
  let sgn : Int := if strStartsWith t "-" then -1 else 1
  let u := if strStartsWith t "-" || strStartsWith t "+" then strDrop t 1 else t
  let ip := strTakeWhile u Char.isDigit
  let r := strDrop u (strLen ip)
  let fp := if strStartsWith r "." then strTakeWhile (strDrop r 1) Char.isDigit else ""
  let rest := if strStartsWith r "." then strDrop (strDrop r 1) (strLen fp) else r
  if rest = "" ∧ (ip ≠ "" ∨ fp ≠ "") then
    some (PyRat.normalize
      (sgn * ((digitsToNat ip : Int) * 10 ^ strLen fp + (digitsToNat fp : Int)))
      (10 ^ strLen fp))
  else
    Option.none

/-- Python `int(x)` on a float value: truncation toward zero. -/
def pyIntTrunc (q : PyRat) : Int :=
  q.num / (q.den : Int)

/-- Model of Python `str(x)` for a float `x` (shortest round-trip repr),
exact for values with a short terminating decimal expansion, which covers
every float produced by this code base's price arithmetic. -/
def decimalRepr (q : PyRat) : String :=
  if q.den = 1 then
    toString q.num ++ ".0"
  else
    let sgnStr := if q.num < 0 then "-" else ""
    let a := q.num.natAbs
    let k := (List.range 17).find? (fun k => (a * 10 ^ (k + 1)) % q.den = 0)
    match k with
    | some k =>
        let scaled := a * 10 ^ (k + 1) / q.den
        let ipart := scaled / 10 ^ (k + 1)
        let fpart := scaled % 10 ^ (k + 1)
        let fstr := toString fpart
        let pad := String.mk (List.replicate (k + 1 - fstr.length) '0')
        sgnStr ++ toString ipart ++ "." ++ pad ++ fstr
    | Option.none => sgnStr ++ toString a ++ "/" ++ toString q.den

/-! ### exclusions.py -/

/-- `exclusions.EXCLUDED_URL_PREFIXES`. -/
def EXCLUDED_URL_PREFIXES : List String :=
  [ "https://www.table.se/produkter/container/"
  , "https://www.table.se/produkter/teknik/"
  , "https://www.table.se/produkter/talt/" ]

/-- `exclusions.is_excluded`: the URL starts with one of the configured
exclusion prefixes. -/
def is_excluded (url : String) : Bool :=
  EXCLUDED_URL_PREFIXES.any (fun p => strStartsWith url p)

/-! ### scraper/utils.py -/

/-- Adjacent-space squeezer used by `normalize_whitespace`. -/
def squeezeSpaces : List Char → List Char
  | [] => []
  | [c] => [c]
  | a :: b :: rest =>
      if a = ' ' ∧ b = ' ' then squeezeSpaces (b :: rest) else a :: squeezeSpaces (b :: rest)

/-- `utils.normalize_whitespace`: `re.sub(r'\s+', ' ', text).strip()`
(empty input short-circuits to the empty string). -/
def normalize_whitespace (text : String) : String :=
  if text = "" then ""
  else
    strTrim (String.mk (squeezeSpaces (text.toList.map
      (fun c => if c.isWhitespace then ' ' else c))))

/-- Tag remover of `utils.strip_html`: `re.sub(r'<[^>]+>', '', text)`.
The fuel argument bounds the recursion by the input length; each step
consumes at least one character. -/
def stripTagsGo : Nat → List Char → List Char
  | 0, cs => cs
  | _ + 1, [] => []
  | fuel + 1, c :: rest =>
      if c = '<' then
        let inner := rest.takeWhile (fun x => x ≠ '>')
        if inner.isEmpty then
          c :: stripTagsGo fuel rest
        else
          match rest.drop inner.length with
          | '>' :: rest2 => stripTagsGo fuel rest2
          | _ => c :: stripTagsGo fuel rest
      else
        c :: stripTagsGo fuel rest

/-- Model of `html.unescape` restricted to the entities appearing on the
scraped site. -/
def unescapeEntities (s : String) : String :=
  strReplace (strReplace (strReplace (strReplace (strReplace s
    "&lt;" "<") "&gt;" ">") "&quot;" "\"") "&#39;" "\x27") "&amp;" "&"

/-- `utils.strip_html`: remove `<...>` spans, unescape entities, strip. -/
def strip_html (text : String) : String :=
  if text = "" then ""
  else strTrim (unescapeEntities (String.mk (stripTagsGo text.toList.length text.toList)))

/-- `utils.validate_url`: `re.match(r'^https?://[^\s]+$', url.strip())`. -/
def validate_url (url : String) : Bool :=
  if url = "" then false
  else
    let t := strTrim url
    (strStartsWith t "https://" && strLen t > 8 || strStartsWith t "http://" && strLen t > 7)
      && t.toList.all (fun c => !c.isWhitespace)

/-- Character class `[0-9.,\-]` of `utils.parse_value_unit`. -/
def pvuNumChar (c : Char) : Bool :=
  c.isDigit || c = '.' || c = ',' || c = '-'

/-- Character class `[a-zA-Z%]` of `utils.parse_value_unit`. -/
def pvuUnitChar (c : Char) : Bool :=
  c.isAlpha || c = '%'

/-- `utils.parse_value_unit`: falsy input gives `(None, None)`; otherwise
commas become dots and the two anchored patterns
`([0-9.,\-]+)\s*([a-zA-Z%]+)` and `([a-zA-Z%]+)\s*([0-9.,\-]+)` are tried in
order (maximal munch is complete here because the three character classes
are pairwise disjoint). -/
def parse_value_unit (text : String) : Option String × Option String :=
  if text = "" then (Option.none, Option.none)
  else
    let t := strReplace text "," "."
    let g1 := strTakeWhile t pvuNumChar
    let r1 := strDropWhile (strDrop t (strLen g1)) Char.isWhitespace
    let g2 := strTakeWhile r1 pvuUnitChar
    if g1 ≠ "" ∧ g2 ≠ "" then (some g1, some g2)
    else
      let h1 := strTakeWhile t pvuUnitChar
      let s1 := strDropWhile (strDrop t (strLen h1)) Char.isWhitespace
      let h2 := strTakeWhile s1 pvuNumChar
      if h1 ≠ "" ∧ h2 ≠ "" then (some h2, some h1)
      else (Option.none, Option.none)

/-! ### scraper/cache.py

The persisted cache file holds a JSON mapping key → `{hash, data}`.  The
in-memory/persisted mapping is modelled directly as an association list
(JSON serialization is modelled as faithful round-tripping); the disk state
threads through `set` explicitly, and log output is returned as messages. -/

/-- One cache entry: `{"hash": ..., "data": ...}`. -/
structure CEntry (α : Type _) where
  hash : String
  data : α
deriving DecidableEq, Repr

/-- The persisted cache mapping. -/
abbrev CacheMap (α : Type _) := List (String × CEntry α)

namespace Cache

/-- `Cache.get`: return the cached item if present and, when a hash is
supplied, only on hash equality.  (An entry dict `{"hash": .., "data": ..}`
is always truthy, so the `if item` guard is just presence.) -/
def get {α : Type _} (cache : CacheMap α) (key : String) (content_hash : Option String) :
    Option α :=
  match assocGet cache key with
  | Option.none => Option.none
  | some item =>
      if content_hash = Option.none ∨ content_hash = some item.hash then some item.data
      else Option.none

/-- `Cache.set`: an empty key is rejected with a warning and nothing is
stored; otherwise the entry is written and the cache persisted.  Returns
the log messages alongside the new persisted mapping. -/
def set {α : Type _} (cache : CacheMap α) (key : String) (data : α) (content_hash : String) :
    List String × CacheMap α :=
  if key = "" then
    (["Tried to cache an item with empty key!"], cache)
  else
    (["Updating cache for key: " ++ key], assocSet cache key ⟨content_hash, data⟩)

end Cache

/-- `scraper.cache.update_cache` (legacy wrapper): delegates to `Cache.set`. -/
def scraperCacheUpdate {α : Type _} (cache : CacheMap α) (sku : String) (data : α)
    (content_hash : String) : List String × CacheMap α :=
  Cache.set cache sku data content_hash

/-- A file system state: file name → file contents. -/
abbrev FS := List (String × String)

/-- `Cache.load_cache` / `product_cache.load_cache`: load the persisted file.
`parse` stands for `json.load`; a `None` result is the `json.JSONDecodeError`
branch, in which the corrupted file is copied aside under `<name>.corrupt`,
a warning is logged, and the empty cache is returned.  The result triple is
(cache, file system, log messages); the function is total — the decode
failure is recovered, not raised. -/
def load_cache {α : Type _} (parse : String → Option (CacheMap α)) (fs : FS)
    (filename : String) : CacheMap α × FS × List String :=
  match assocGet fs filename with
  | Option.none => ([], fs, [])
  | some content =>
      match parse content with
      | some cache => (cache, fs, [])
      | Option.none =>
          ([], assocSet fs (filename ++ ".corrupt") content,
            ["Cache file corrupted! Backup saved as " ++ filename ++
              ".corrupt. Starting with empty cache."])

namespace ProductCache

/-- `product_cache.update_cache` (the legacy top-level module): stores the
entry unconditionally — there is no empty-key guard — and persists. -/
def update_cache {α : Type _} (cache : CacheMap α) (sku : String) (data : α)
    (content_hash : String) : CacheMap α :=
  assocSet cache sku ⟨content_hash, data⟩

end ProductCache

/-! ### scraper/product.py -/

/-- `product.parse_price_string`: `re.match(r"([\d\.,]+)\s*([^\d\s]+)?", s.strip())`,
value with commas turned into dots, unit defaulting to the empty string.
Maximal munch is faithful: nothing follows the optional trailing group. -/
def parse_price_string (price_str : String) : String × String :=
  if price_str = "" then ("", "")
  else
    let t := strTrim price_str
    let g1 := strTakeWhile t (fun c => c.isDigit || c = '.' || c = ',')
    if g1 = "" then ("", "")
    else
      let r := strDropWhile (strDrop t (strLen g1)) Char.isWhitespace
      let g2 := strTakeWhile r (fun c => !c.isDigit && !c.isWhitespace)
      (strReplace g1 "," ".", g2)

/-- `price_format` (local to `product.scrape_product`):
`float(val)`, `"0"` for zero, `str(val_float)` when the input has no dot or the
value is not whole, `str(int(val_float))` otherwise; parse failure returns the
input unchanged. -/
def price_format (val : String) : String :=
  match pyFloat val with
  | Option.none => val
  | some q =>
      if q = 0 then "0"
      else if ¬ strContainsChar val '.' ∨ q.den ≠ 1 then decimalRepr q
      else toString (pyIntTrunc q)

/-- JSON string escaping as done by `json.dumps` (quote and backslash; control
characters do not occur in the scraped fields). -/
def jsonEscape (s : String) : String :=
  String.join (s.toList.map (fun c =>
    if c = '"' then "\\\"" else if c = '\\' then "\\\\" else String.mk [c]))

/-- Insertion sort of dict items by key, for `json.dumps(..., sort_keys=True)`. -/
def insertByKey (x : String × String) : List (String × String) → List (String × String)
  | [] => [x]
  | y :: ys => if x.1 < y.1 then x :: y :: ys else y :: insertByKey x ys

/-- Items sorted ascending by key. -/
def sortByKey (l : List (String × String)) : List (String × String) :=
  l.foldr insertByKey []

/-- `json.dumps(dict, ensure_ascii=False, sort_keys=True)` on a string→string
mapping (default separators). -/
def jsonDumpsSorted (l : List (String × String)) : String :=
  "\x7b" ++ String.intercalate ", "
      ((sortByKey l).map (fun kv =>
        "\"" ++ jsonEscape kv.1 ++ "\": \"" ++ jsonEscape kv.2 ++ "\"")) ++ "\x7d"

/-- The sixteen measurement keys of the product record, filled from the
parsed feature panel by `dict.get` without a default. -/
def measurementKeys : List String :=
  [ "Längd (värde)", "Längd (enhet)", "Bredd (värde)", "Bredd (enhet)"
  , "Höjd (värde)", "Höjd (enhet)", "Djup (värde)", "Djup (enhet)"
  , "Diameter (värde)", "Diameter (enhet)", "Kapacitet (värde)", "Kapacitet (enhet)"
  , "Volym (värde)", "Volym (enhet)", "Vikt (värde)", "Vikt (enhet)" ]

/-- `main_fields.get(k)` as a record value: the string when present,
Python `None` when absent. -/
def optToPyVal : Option String → PyVal
  | Option.none => PyVal.none
  | some s => PyVal.str s

/-- The `data` dict built by `product.scrape_product` (lines 350–383).

Inputs are the raw selector results, after the `or`-fallbacks of the source
(so they are strings), together with the parsed feature panel
`(main_fields, extra_fields)`, the canonical product URL and the resolved
category pair.  Selector resolution itself (BeautifulSoup) is outside the
embedding; everything from the raw texts to the record is translated. -/
def scrapeData (namn artikelnummer_raw pris_inkl_raw pris_exkl_raw
    produktbild_url_raw beskrivning_raw : String)
    (mainFields extraFields : List (String × String))
    (produkt_url kategori_parent kategori_sub : String) : PyRecord :=
  let artikelnummer_digits := String.mk (artikelnummer_raw.toList.filter Char.isDigit)
  let pi := parse_price_string pris_inkl_raw
  let pe := parse_price_string pris_exkl_raw
  let pris_inkl_fmt := price_format pi.1
  let pris_exkl_fmt := price_format pe.1
  let produktbild_url := if validate_url produktbild_url_raw then produktbild_url_raw else ""
  let beskrivning := normalize_whitespace (strip_html beskrivning_raw)
  let getMF := fun (k : String) => (assocGet mainFields k).getD ""
  let extra_data_json := if extraFields = [] then "" else jsonDumpsSorted extraFields
  [ ("Namn", PyVal.str namn)
  , ("Artikelnummer", PyVal.str artikelnummer_digits)
  , ("Färg", PyVal.str (getMF "Färg"))
  , ("Material", PyVal.str (getMF "Material"))
  , ("Serie", PyVal.str (getMF "Serie"))
  , ("Pris exkl. moms (värde)", PyVal.str pris_exkl_fmt)
  , ("Pris exkl. moms (enhet)",
      PyVal.str (if pris_exkl_fmt ≠ "" then (if pe.2 ≠ "" then pe.2 else "kr") else ""))
  , ("Pris inkl. moms (värde)", PyVal.str pris_inkl_fmt)
  , ("Pris inkl. moms (enhet)",
      PyVal.str (if pris_inkl_fmt ≠ "" then (if pi.2 ≠ "" then pi.2 else "kr") else ""))
  , ("Längd (värde)", optToPyVal (assocGet mainFields "Längd (värde)"))
  , ("Längd (enhet)", optToPyVal (assocGet mainFields "Längd (enhet)"))
  , ("Bredd (värde)", optToPyVal (assocGet mainFields "Bredd (värde)"))
  , ("Bredd (enhet)", optToPyVal (assocGet mainFields "Bredd (enhet)"))
  , ("Höjd (värde)", optToPyVal (assocGet mainFields "Höjd (värde)"))
  , ("Höjd (enhet)", optToPyVal (assocGet mainFields "Höjd (enhet)"))
  , ("Djup (värde)", optToPyVal (assocGet mainFields "Djup (värde)"))
  , ("Djup (enhet)", optToPyVal (assocGet mainFields "Djup (enhet)"))
  , ("Diameter (värde)", optToPyVal (assocGet mainFields "Diameter (värde)"))
  , ("Diameter (enhet)", optToPyVal (assocGet mainFields "Diameter (enhet)"))
  , ("Kapacitet (värde)", optToPyVal (assocGet mainFields "Kapacitet (värde)"))
  , ("Kapacitet (enhet)", optToPyVal (assocGet mainFields "Kapacitet (enhet)"))
  , ("Volym (värde)", optToPyVal (assocGet mainFields "Volym (värde)"))
  , ("Volym (enhet)", optToPyVal (assocGet mainFields "Volym (enhet)"))
  , ("Vikt (värde)", optToPyVal (assocGet mainFields "Vikt (värde)"))
  , ("Vikt (enhet)", optToPyVal (assocGet mainFields "Vikt (enhet)"))
  , ("Data (text)", PyVal.str (getMF "Data (text)"))
  , ("Kategori (parent)", PyVal.str kategori_parent)
  , ("Kategori (sub)", PyVal.str kategori_sub)
  , ("Produktbild-URL", PyVal.str produktbild_url)
  , ("Produkt-URL", PyVal.str produkt_url)
  , ("Beskrivning", PyVal.str beskrivning)
  , ("Extra data", PyVal.str extra_data_json) ]

/-- The tail of `product.scrape_product` (lines 342–385): a cache lookup under
the digits-only SKU with the page's content hash short-circuits to the cached
record; otherwise the freshly built record is stored and returned.  Returns
the emitted record with the updated cache state. -/
def scrape_product_core (cache : CacheMap PyRecord) (content_hash : String)
    (namn artikelnummer_raw pris_inkl_raw pris_exkl_raw
      produktbild_url_raw beskrivning_raw : String)
    (mainFields extraFields : List (String × String))
    (produkt_url kategori_parent kategori_sub : String) :
    PyRecord × CacheMap PyRecord :=
  let artikelnummer_digits := String.mk (artikelnummer_raw.toList.filter Char.isDigit)
  match Cache.get cache artikelnummer_digits (some content_hash) with
  | some cached => (cached, cache)
  | Option.none =>
      let data := scrapeData namn artikelnummer_raw pris_inkl_raw pris_exkl_raw
        produktbild_url_raw beskrivning_raw mainFields extraFields
        produkt_url kategori_parent kategori_sub
      (data, (Cache.set cache artikelnummer_digits data content_hash).2)

/-! ### scraper/category.py -/

/-- A `<li>` of the mega menu: its first anchor (href and link text), if it
has one, and the items of its first nested `<ul>` (absent and empty nested
lists behave identically in `parse_menu_ul`, so both are `[]`). -/
inductive MenuLi where
  | mk : Option (String × String) → List MenuLi → MenuLi

/-- A node of the extracted category tree, keys `name`, `url`, `level`,
`subs` of the source dict (the `color` key carries presentation metadata
computed with floating-point HSL arithmetic and is not modelled). -/
structure CatNode where
  name : String
  url : String
  level : Nat
  subs : List CatNode

/-- `urljoin(BASE_URL, href)` for `BASE_URL = "https://www.table.se"`:
absolute hrefs pass through, others are resolved against the host. -/
def urljoinBase (href : String) : String :=
  if strStartsWith href "http://" ∨ strStartsWith href "https://" then href
  else if strStartsWith href "/" then "https://www.table.se" ++ href
  else "https://www.table.se/" ++ href

/-- Substring test (Python `"/produkter/" in href`). -/
def strContainsStr (s pat : String) : Bool :=
  occursIn pat.toList s.toList

mutual

/-- `category.parse_menu_ul`: keep a `<li>` iff it has an anchor whose href
contains `"/produkter/"`; recurse into its nested `<ul>` at `level + 1`.
Neither a product-path prefix test on the joined URL nor `is_excluded`
is applied. -/
def parseMenuUl : List MenuLi → Nat → List CatNode
  | [], _ => []
  | li :: rest, level => parseMenuLi li level ++ parseMenuUl rest level

/-- One `<li>` of `parse_menu_ul`'s loop. -/
def parseMenuLi : MenuLi → Nat → List CatNode
  | MenuLi.mk Option.none _, _ => []
  | MenuLi.mk (some (href, text)) subUl, level =>
      if strContainsStr href "/produkter/" then
        [⟨text, urljoinBase href, level, parseMenuUl subUl (level + 1)⟩]
      else
        []

end

/-- `category.extract_category_tree`, given the chosen top-level `<ul>` of the
mega menu (the navigation fetch and widest-`ul` selection are I/O and are
abstracted into the argument).  The final `[node for node in tree if node]`
keeps every node — the dicts are never falsy. -/
def extract_category_tree (topUl : List MenuLi) : List CatNode :=
  parseMenuUl topUl 0

mutual

/-- All URLs of a category tree (helper `category.all_category_urls`). -/
def allCategoryUrls : List CatNode → List String
  | [] => []
  | n :: rest => catNodeUrls n ++ allCategoryUrls rest

/-- URLs of one node and its subtree. -/
def catNodeUrls : CatNode → List String
  | CatNode.mk _ url _ subs => url :: allCategoryUrls subs

end

/-! ### scraper/fetch.py -/

/-- What one `session.get` call produces: a transport exception
(connection failure or timeout), or an HTTP response with status and body.
The connection-level urllib3 adapter of `get_session` (status_forcelist
`{429, 500, 502, 503, 504}`) lives below this interface: an `Outcome` is
what `fetch_url`'s own loop observes. -/
inductive Outcome where
  | exc : Outcome
  | resp : Nat → String → Outcome

/-- Does `fetch_url` treat an outcome as a failed attempt?  A transport
exception, or any status that makes `raise_for_status` raise
(4xx and 5xx alike). -/
def attemptFails : Outcome → Bool
  | Outcome.exc => true
  | Outcome.resp s _ => 400 ≤ s && s < 600

/-- The attempt loop of `fetch_url`: attempt `i` with `budget` attempts
remaining.  Returns how many attempts were made and the returned text
(`none` when the loop ended by re-raising the last exception). -/
def fetchGo (outcomes : Nat → Outcome) : Nat → Nat → Nat × Option String
  | _, 0 => (0, Option.none)
  | i, budget + 1 =>
      match outcomes i with
      | Outcome.exc =>
          let r := fetchGo outcomes (i + 1) budget
          (r.1 + 1, r.2)
      | Outcome.resp s t =>
          if 400 ≤ s ∧ s < 600 then
            let r := fetchGo outcomes (i + 1) budget
            (r.1 + 1, r.2)
          else
            (1, some t)

/-- `fetch.fetch_url` for a given `max_retries` and per-attempt outcomes. -/
def fetch_url (max_retries : Nat) (outcomes : Nat → Outcome) : Nat × Option String :=
  fetchGo outcomes 0 max_retries

/-- Number of consecutive failing outcomes starting at attempt `i`,
capped by the remaining budget. -/
def leadFailCnt (outcomes : Nat → Outcome) : Nat → Nat → Nat
  | _, 0 => 0
  | i, n + 1 =>
      if attemptFails (outcomes i) then leadFailCnt outcomes (i + 1) n + 1 else 0

/-! ### scraper/scanner.py -/

/-- `scanner.PRODUCT_DATAPOINTS`: the canonical record key set, in export
order (the source's Swedish labels carry the spec's canonical columns). -/
def PRODUCT_DATAPOINTS : List String :=
  [ "Namn", "Artikelnummer", "Färg", "Material", "Serie"
  , "Pris exkl. moms (värde)", "Pris exkl. moms (enhet)"
  , "Pris inkl. moms (värde)", "Pris inkl. moms (enhet)"
  , "Längd (värde)", "Längd (enhet)", "Bredd (värde)", "Bredd (enhet)"
  , "Höjd (värde)", "Höjd (enhet)", "Djup (värde)", "Djup (enhet)"
  , "Diameter (värde)", "Diameter (enhet)", "Kapacitet (värde)", "Kapacitet (enhet)"
  , "Volym (värde)", "Volym (enhet)", "Vikt (värde)", "Vikt (enhet)"
  , "Data (text)", "Kategori (parent)", "Kategori (sub)"
  , "Produktbild-URL", "Produkt-URL", "Beskrivning", "Extra data" ]

/-- `scanner.validate_product`'s default `REQUIRED_FIELDS`. -/
def REQUIRED_FIELDS : List String :=
  ["Namn", "Artikelnummer", "Pris inkl. moms (värde)", "Produkt-URL", "Produktbild-URL"]

/-- Character class `[A-Za-z0-9\- ]` of the SKU validator. -/
def skuCharOk (c : Char) : Bool :=
  c.isAlpha || c.isDigit || c = '-' || c = ' '

/-- `scanner.validate_product`: the validation error list, in emission order.
`required_fields = []` stands for the Python default `None` (both take the
`if not required_fields` branch).  Values go through `str(...)`, so a `None`
value reads back as the string `"None"` exactly as in the source. -/
def validate_product (product : PyRecord) (required_fields : List String) : List String :=
  let req := if required_fields = [] then REQUIRED_FIELDS else required_fields
  let missing := (req.filter
      (fun f => strTrim (pyStr (pyGetD product f (PyVal.str ""))) = "")).map
      (fun f => "Missing: " ++ f)
  let priceErr :=
    match pyFloat (strReplace (pyStr (pyGetD product "Pris inkl. moms (värde)" (PyVal.str "0")))
        "," ".") with
    | some price => if price ≤ 0 then ["Price must be positive"] else []
    | Option.none => ["Price is not a number"]
  let sku := pyStr (pyGetD product "Artikelnummer" (PyVal.str ""))
  let skuErr :=
    if sku ≠ "" ∧ ¬ (sku.toList.all skuCharOk) then
      ["Artikelnummer (SKU) may have invalid characters"]
    else []
  let img := pyStr (pyGetD product "Produktbild-URL" (PyVal.str ""))
  let imgErr :=
    if img = "" ∨ strTrim img = "" ∨ strEndsWith img "placeholder.png" then
      ["Missing or placeholder product image"]
    else []
  let catErr :=
    if truthyGet product "Kategori (parent)" ∨ truthyGet product "Kategori (sub)"
        ∨ truthyGet product "Category" ∨ truthyGet product "category" then []
    else ["Missing category"]
  let url := pyStr (pyGetD product "Produkt-URL" (PyVal.str ""))
  let urlErr := if url ≠ "" ∧ ¬ strStartsWith url "http" then ["Invalid product URL"] else []
  let namn := pyStr (pyGetD product "Namn" (PyVal.str ""))
  let namnErr :=
    if namn ≠ "" ∧ strLen namn < 3 then ["Suspiciously short product name"] else []
  missing ++ priceErr ++ skuErr ++ imgErr ++ catErr ++ urlErr ++ namnErr

/-- Sorted insertion for the median computation. -/
def insertRat (x : PyRat) : List PyRat → List PyRat
  | [] => [x]
  | y :: ys => if x ≤ y then x :: y :: ys else y :: insertRat x ys

/-- Ascending sort (what `np.median` does internally). -/
def sortRats (l : List PyRat) : List PyRat :=
  l.foldr insertRat []

/-- `np.median`: middle element for odd length, mean of the two middle
elements for even length. -/
def median (l : List PyRat) : PyRat :=
  let s := sortRats l
  let n := s.length
  if n = 0 then 0
  else if n % 2 = 1 then s.getD (n / 2) 0
  else (s.getD (n / 2 - 1) 0 + s.getD (n / 2) 0) / 2

/-- The `(index, value)` pairs of records whose `field` parses as a float
(`float(str(prod.get(field, "")).replace(",", "."))`, failures skipped). -/
def anomalyPairs (products : List PyRecord) (field : String) : List (Nat × PyRat) :=
  products.enum.filterMap (fun ip =>
    (pyFloat (strReplace (pyStr (pyGetD ip.2 field (PyVal.str ""))) "," ".")).map
      (fun v => (ip.1, v)))

/-- The median of the parsed values. -/
def anomalyMedian (products : List PyRecord) (field : String) : PyRat :=
  median ((anomalyPairs products field).map (fun p => p.2))

/-- The median absolute deviation of the parsed values. -/
def anomalyMAD (products : List PyRecord) (field : String) : PyRat :=
  median ((anomalyPairs products field).map
    (fun p => PyRat.abs (p.2 - anomalyMedian products field)))

/-- `scanner.detect_anomalies`: no flags for fewer than three numeric values
or zero MAD; otherwise the pairs whose modified Z-score
`0.6745 * (x - median) / MAD` exceeds the threshold in absolute value. -/
def detect_anomalies (products : List PyRecord) (field : String) (z_thresh : PyRat) :
    List (Nat × PyRat) :=
  let pairs := anomalyPairs products field
  if pairs.length < 3 then []
  else
    let med := anomalyMedian products field
    let mad := anomalyMAD products field
    if mad = 0 then []
    else pairs.filter (fun p =>
      PyRat.abs ((0.6745 : PyRat) * (p.2 - med) / mad) > z_thresh)

/-- The error-bucket key of `scan_products`:
`prod.get("Artikelnummer") or prod.get("Produkt-URL") or f"idx_{i}"`. -/
def pyKey (p : PyRecord) (i : Nat) : String :=
  match assocGet p "Artikelnummer" with
  | some (PyVal.str s) =>
      if s ≠ "" then s
      else match assocGet p "Produkt-URL" with
        | some (PyVal.str u) => if u ≠ "" then u else "idx_" ++ toString i
        | _ => "idx_" ++ toString i
  | _ =>
      match assocGet p "Produkt-URL" with
      | some (PyVal.str u) => if u ≠ "" then u else "idx_" ++ toString i
      | _ => "idx_" ++ toString i

/-- Validation phase of `scan_products`: walk the product list with its index,
appending valid records to `filtered` and writing `product_errors[key] = errs`
for flagged ones (dict overwrite on key collision, as in the source). -/
def scanPhase1 (required_fields : List String) :
    List PyRecord → Nat → List PyRecord × List (String × List String) →
      List PyRecord × List (String × List String)
  | [], _, acc => acc
  | p :: rest, i, (filtered, perrs) =>
      let errs := validate_product p required_fields
      if errs = [] then
        scanPhase1 required_fields rest (i + 1) (filtered ++ [p], perrs)
      else
        scanPhase1 required_fields rest (i + 1) (filtered, assocSet perrs (pyKey p i) errs)

/-- `scanner.scan_products` (the pure pipeline: the report logging and the
review-export side channel perform I/O only).  Returns
`(filtered_products, product_errors)`. -/
def scan_products (products : List PyRecord) (required_fields : List String)
    (anomaly_field : String) (anomaly_z : PyRat) :
    List PyRecord × List (String × List String) :=
  let (filtered, perrs) := scanPhase1 required_fields products 0 ([], [])
  let outliers := detect_anomalies products anomaly_field anomaly_z
  let perrs2 := outliers.foldl (fun acc iv =>
    assocAppend acc (pyKey (products.getD iv.1 []) iv.1)
      (anomaly_field ++ " outlier: " ++ decimalRepr iv.2)) perrs
  (filtered, perrs2)

/-! ### Concrete samples used by the theorems -/

/-- One hundred prices clustered near 500 (451–549) with the last record
priced 500000: the outlier scenario of the spec. -/
def scenarioProducts : List PyRecord :=
  ((List.range 99).map (fun i =>
    [("Pris inkl. moms (värde)", PyVal.str (toString (451 + i)))])) ++
  [[("Pris inkl. moms (värde)", PyVal.str "500000")]]

/-- Four prices, one far below the rest (signed modified Z-score −681.58). -/
def fourPriceSample : List PyRecord :=
  [ [("Pris inkl. moms (värde)", PyVal.str "10")]
  , [("Pris inkl. moms (värde)", PyVal.str "11")]
  , [("Pris inkl. moms (värde)", PyVal.str "12")]
  , [("Pris inkl. moms (värde)", PyVal.str "-1000")] ]

/-- A mega-menu `<ul>` whose single entry links into the excluded
`container` section. -/
def excludedMenu : List MenuLi :=
  [MenuLi.mk (some ("/produkter/container/box/", "Box")) []]

/-- A record that passes every validator except the category check. -/
def recNoCat : PyRecord :=
  [ ("Namn", PyVal.str "Stol Beta"), ("Artikelnummer", PyVal.str "777")
  , ("Pris inkl. moms (värde)", PyVal.str "10")
  , ("Produkt-URL", PyVal.str "https://www.table.se/p")
  , ("Produktbild-URL", PyVal.str "https://www.table.se/i.jpg") ]

/-! ### Association-list lemmas -/

theorem assocGet_assocSet {β : Type _} (l : List (String × β)) (k k' : String) (v : β) :
    assocGet (assocSet l k v) k' = if k = k' then some v else assocGet l k' := by
  induction l with
  | nil =>
      by_cases h : k = k' <;> simp [assocSet, assocGet, h]
  | cons hd tl ih =>
      obtain ⟨k0, v0⟩ := hd
      by_cases h0 : k0 = k
      · subst h0
        by_cases h : k0 = k' <;> simp [assocSet, assocGet, h]
      · by_cases h : k0 = k'
        · subst h
          simp [assocSet, assocGet, h0, Ne.symm h0]
        · simp [assocSet, assocGet, h0, h, ih]

theorem assocGet_assocSet_self {β : Type _} (l : List (String × β)) (k : String) (v : β) :
    assocGet (assocSet l k v) k = some v := by
  simp [assocGet_assocSet]

theorem isSome_assocGet_assocSet {β : Type _} (l : List (String × β)) (k k' : String) (v : β)
    (h : (assocGet l k').isSome) : (assocGet (assocSet l k v) k').isSome := by
  rw [assocGet_assocSet]
  by_cases hk : k = k' <;> simp [hk, h]

theorem isSome_assocGet_assocAppend (l : List (String × List String)) (k k' msg : String)
    (h : (assocGet l k').isSome) : (assocGet (assocAppend l k msg) k').isSome := by
  induction l with
  | nil => simp [assocGet] at h
  | cons hd tl ih =>
      obtain ⟨k0, v0⟩ := hd
      by_cases h0 : k0 = k
      · by_cases h' : k0 = k'
        · simp only [assocAppend, assocGet, if_pos h0, if_pos h', Option.isSome_some]
        · simp only [assocAppend, assocGet, if_pos h0, if_neg h', Option.isSome_some] at h ⊢
          exact h
      · by_cases h' : k0 = k'
        · simp only [assocAppend, assocGet, if_neg h0, if_pos h', Option.isSome_some]
        · simp only [assocAppend, assocGet, if_neg h0, if_neg h', Option.isSome_some] at h ⊢
          exact ih h

/-! ### Scanner lemmas -/

theorem mem_validate_missing_category (p : PyRecord) (req : List String)
    (hcat : truthyGet p "Kategori (parent)" = false ∧ truthyGet p "Kategori (sub)" = false ∧
      truthyGet p "Category" = false ∧ truthyGet p "category" = false) :
    "Missing category" ∈ validate_product p req := by
  obtain ⟨h1, h2, h3, h4⟩ := hcat
  unfold validate_product
  simp only [h1, h2, h3, h4]
  simp [List.mem_append]

theorem scanPhase1_filtered_mem (req : List String) :
    ∀ (l : List PyRecord) (i : Nat) (acc : List PyRecord × List (String × List String))
      (q : PyRecord), q ∈ (scanPhase1 req l i acc).1 →
      q ∈ acc.1 ∨ validate_product q req = [] := by
  intro l
  induction l with
  | nil =>
      intro i acc q hq
      exact Or.inl hq
  | cons p rest ih =>
      intro i acc q hq
      obtain ⟨f, e⟩ := acc
      by_cases he : validate_product p req = []
      · simp only [scanPhase1, if_pos he] at hq
        rcases ih (i + 1) (f ++ [p], e) q hq with hin | hval
        · rcases List.mem_append.mp hin with hf | hp
          · exact Or.inl hf
          · rcases List.mem_singleton.mp hp with rfl
            exact Or.inr he
        · exact Or.inr hval
      · simp only [scanPhase1, if_neg he] at hq
        exact ih (i + 1) (f, assocSet e (pyKey p i) (validate_product p req)) q hq

theorem scanPhase1_errs_mono (req : List String) :
    ∀ (l : List PyRecord) (i : Nat) (acc : List PyRecord × List (String × List String))
      (k : String), (assocGet acc.2 k).isSome →
      (assocGet (scanPhase1 req l i acc).2 k).isSome := by
  intro l
  induction l with
  | nil =>
      intro i acc k hk
      exact hk
  | cons p rest ih =>
      intro i acc k hk
      obtain ⟨f, e⟩ := acc
      by_cases he : validate_product p req = []
      · simp only [scanPhase1, if_pos he]
        exact ih (i + 1) (f ++ [p], e) k hk
      · simp only [scanPhase1, if_neg he]
        exact ih (i + 1) (f, assocSet e (pyKey p i) (validate_product p req)) k
          (isSome_assocGet_assocSet _ _ _ _ hk)

theorem scanPhase1_errs_key (req : List String) :
    ∀ (l : List PyRecord) (j i : Nat) (acc : List PyRecord × List (String × List String)),
      j < l.length → validate_product (l.getD j []) req ≠ [] →
      (assocGet (scanPhase1 req l i acc).2 (pyKey (l.getD j []) (i + j))).isSome := by
  intro l
  induction l with
  | nil =>
      intro j i acc hj
      exact absurd hj (Nat.not_lt_zero j)
  | cons p rest ih =>
      intro j i acc hj hval
      obtain ⟨f, e⟩ := acc
      cases j with
      | zero =>
          rw [List.getD_cons_zero] at hval ⊢
          simp only [scanPhase1, if_neg hval, Nat.add_zero]
          exact scanPhase1_errs_mono req rest (i + 1)
            (f, assocSet e (pyKey p i) (validate_product p req)) _
            (by rw [assocGet_assocSet_self]; rfl)
      | succ j' =>
          rw [List.getD_cons_succ] at hval ⊢
          have hidx : i + (j' + 1) = (i + 1) + j' := by omega
          rw [hidx]
          have hj' : j' < rest.length := by
            simpa using Nat.lt_of_succ_lt_succ hj
          by_cases he : validate_product p req = []
          · simp only [scanPhase1, if_pos he]
            exact ih j' (i + 1) (f ++ [p], e) hj' hval
          · simp only [scanPhase1, if_neg he]
            exact ih j' (i + 1) (f, assocSet e (pyKey p i) (validate_product p req)) hj' hval

theorem outlierFold_isSome (products : List PyRecord) (fld : String) :
    ∀ (l : List (Nat × PyRat)) (m : List (String × List String)) (k : String),
      (assocGet m k).isSome →
      (assocGet (l.foldl (fun acc iv =>
        assocAppend acc (pyKey (products.getD iv.1 []) iv.1)
          (fld ++ " outlier: " ++ decimalRepr iv.2)) m) k).isSome := by
  intro l
  induction l with
  | nil =>
      intro m k hk
      exact hk
  | cons iv rest ih =>
      intro m k hk
      exact ih _ k (isSome_assocGet_assocAppend _ _ _ _ hk)

/-! ### Fetch lemmas -/

theorem fetchGo_count (outcomes : Nat → Outcome) :
    ∀ (n i : Nat), (fetchGo outcomes i n).1 = min n (leadFailCnt outcomes i n + 1) := by
  intro n
  induction n with
  | zero =>
      intro i
      simp [fetchGo, leadFailCnt]
  | succ n ih =>
      intro i
      cases hoc : outcomes i with
      | exc =>
          have hb : attemptFails Outcome.exc = true := rfl
          simp only [fetchGo, leadFailCnt, hoc, hb, if_pos]
          rw [ih (i + 1), Nat.succ_min_succ]
      | resp s t =>
          by_cases hs : 400 ≤ s ∧ s < 600
          · have hb : attemptFails (Outcome.resp s t) = true := by
              simp [attemptFails, hs.1, hs.2]
            simp only [fetchGo, leadFailCnt, hoc, hb, if_pos hs, if_pos]
            rw [ih (i + 1), Nat.succ_min_succ]
          · have hb : attemptFails (Outcome.resp s t) = false := by
              simp only [attemptFails, Bool.and_eq_false_iff, decide_eq_false_iff_not]
              omega
            simp only [fetchGo, leadFailCnt, hoc, hb, if_neg hs, Bool.false_eq_true,
              if_false]
            omega

/-! ### Claim theorems -/

set_option maxRecDepth 200000

/-- **C1** (code evaluation at the failing input).  For a product page with
name text `"Bord Alfa"`, raw SKU text `"Art. 1234-5"` and raw price text
`"1 499,00 kr"` (fresh cache, no feature panel), the extractor emits
`Namn = "Bord Alfa"` and `Artikelnummer = "12345"` as the claim states, but
`Pris inkl. moms (värde) = "1.0"` — not `"1499.0"`: `parse_price_string`'s
pattern `([\d\.,]+)` stops at the thousands space, so the captured value is
`"1"`, which `price_format` renders as `"1.0"` (the unit falls back to
`"kr"`).  The claim's expected value would require routing the price through
`utils.parse_price`, which `product.py` imports but never applies. -/
theorem C1_price_pipeline_eval :
    assocGet (scrape_product_core [] "h" "Bord Alfa" "Art. 1234-5" "1 499,00 kr" "" "" ""
        [] [] "https://www.table.se/produkt/bord-alfa/" "" "").1 "Namn" =
      some (PyVal.str "Bord Alfa") ∧
    assocGet (scrape_product_core [] "h" "Bord Alfa" "Art. 1234-5" "1 499,00 kr" "" "" ""
        [] [] "https://www.table.se/produkt/bord-alfa/" "" "").1 "Artikelnummer" =
      some (PyVal.str "12345") ∧
    assocGet (scrape_product_core [] "h" "Bord Alfa" "Art. 1234-5" "1 499,00 kr" "" "" ""
        [] [] "https://www.table.se/produkt/bord-alfa/" "" "").1 "Pris inkl. moms (värde)" =
      some (PyVal.str "1.0") ∧
    assocGet (scrape_product_core [] "h" "Bord Alfa" "Art. 1234-5" "1 499,00 kr" "" "" ""
        [] [] "https://www.table.se/produkt/bord-alfa/" "" "").1 "Pris inkl. moms (enhet)" =
      some (PyVal.str "kr") ∧
    parse_price_string "1 499,00 kr" = ("1", "") := by
  decide

/-- **C2** (code evaluation at the failing input).  A mega menu whose single
entry links to `/produkter/container/box/` — an URL satisfying `is_excluded` —
produces a category tree containing exactly that excluded node:
`parse_menu_ul` admits every anchor whose href contains `"/produkter/"` and
never consults the exclusion predicate, contradicting the invariant (and the
repository's own `test_exclusion` test and module docstring). -/
theorem C2_excluded_node_in_tree :
    allCategoryUrls (extract_category_tree excludedMenu) =
      ["https://www.table.se/produkter/container/box/"] ∧
    is_excluded "https://www.table.se/produkter/container/box/" = true := by
  refine ⟨?_, by decide⟩
  simp only [extract_category_tree, excludedMenu, parseMenuUl, parseMenuLi,
    allCategoryUrls, catNodeUrls]
  norm_num [strContainsStr, occursIn, isPreList, urljoinBase, strStartsWith]
  decide

/-- **C3** (counterexample).  The claim says no further attempt is made after
an HTTP 4xx other than 429.  With `max_retries = 2` and every attempt
answering status 404, `fetch_url` performs 2 attempts — it retries after the
404 (`raise_for_status` raises, the blanket `except` catches and loops). -/
theorem C3_retry_after_404_counterexample :
    (fetch_url 2 (fun _ => Outcome.resp 404 "not found")).1 = 2 ∧ (404 : Nat) ≠ 429 := by
  decide

/-- **C3** (amended).  `fetch_url` makes `min max_retries (f + 1)` attempts,
where `f` counts the leading failing outcomes; an outcome fails — and is
retried while budget remains — exactly when it is a transport exception or
an HTTP status in 400–599 (so every 4xx is retried, not only 429; the
status set `{429, 500, 502, 503, 504}` only governs the connection-level
adapter inside `get_session`). -/
theorem C3_fetch_retry_policy (max_retries : Nat) (outcomes : Nat → Outcome) :
    (fetch_url max_retries outcomes).1 =
      min max_retries (leadFailCnt outcomes 0 max_retries + 1) ∧
    (∀ s t, attemptFails (Outcome.resp s t) = true ↔ (400 ≤ s ∧ s < 600)) := by
  refine ⟨fetchGo_count outcomes max_retries 0, ?_⟩
  intro s t
  by_cases hs : 400 ≤ s ∧ s < 600 <;> simp [attemptFails, hs]

/-- **C4**.  Cache round-trip: after `set(k, v, h)` on any cache state with a
non-empty key, `get(k, h)` returns `v` and `get(k, h')` returns `None` for
any `h' ≠ h`. -/
theorem C4_cache_roundtrip {α : Type _} (cache : CacheMap α) (k : String) (v : α)
    (h h' : String) (hk : k ≠ "") (hne : h' ≠ h) :
    Cache.get (Cache.set cache k v h).2 k (some h) = some v ∧
    Cache.get (Cache.set cache k v h).2 k (some h') = Option.none := by
  unfold Cache.set
  rw [if_neg hk]
  unfold Cache.get
  rw [assocGet_assocSet_self]
  constructor
  · simp
  · simp [hne]

/-- Witness for C4 at a concrete state. -/
theorem C4_cache_roundtrip_witness :
    Cache.get (Cache.set ([] : CacheMap Nat) "7011" 55 "a1").2 "7011" (some "a1") = some 55 ∧
    Cache.get (Cache.set ([] : CacheMap Nat) "7011" 55 "a1").2 "7011" (some "b2") =
      Option.none :=
  C4_cache_roundtrip [] "7011" 55 "a1" "b2" (by decide) (by decide)

/-- **C5** (counterexample).  The claim says unresolved fields hold the empty
string, never null.  A product page without a feature panel yields a record
whose `Längd (värde)` is Python `None` (the measurement fields are filled by
`main_fields.get(...)` without a default), not `""`. -/
theorem C5_null_measurement_counterexample :
    assocGet (scrapeData "" "" "" "" "" "" [] [] "" "" "") "Längd (värde)" =
      some PyVal.none ∧ PyVal.none ≠ PyVal.str "" := by
  decide

/-- **C5** (amended).  Every record built by the extractor carries exactly the
canonical key set in order; the sixteen measurement fields mirror the parsed
feature panel — the panel's string when the key is present, Python `None`
(not the empty string) when it is absent.  All other fields are strings. -/
theorem C5_record_shape (namn artikelnummer_raw pris_inkl_raw pris_exkl_raw
    produktbild_url_raw beskrivning_raw : String)
    (mainFields extraFields : List (String × String))
    (produkt_url kategori_parent kategori_sub : String) :
    (scrapeData namn artikelnummer_raw pris_inkl_raw pris_exkl_raw produktbild_url_raw
        beskrivning_raw mainFields extraFields produkt_url kategori_parent
        kategori_sub).map Prod.fst = PRODUCT_DATAPOINTS ∧
    (∀ k ∈ measurementKeys,
      assocGet (scrapeData namn artikelnummer_raw pris_inkl_raw pris_exkl_raw
          produktbild_url_raw beskrivning_raw mainFields extraFields produkt_url
          kategori_parent kategori_sub) k = some (optToPyVal (assocGet mainFields k))) := by
  constructor
  · rfl
  · intro k hk
    simp only [measurementKeys, List.mem_cons, List.not_mem_nil, or_false] at hk
    rcases hk with rfl | rfl | rfl | rfl | rfl | rfl | rfl | rfl | rfl | rfl | rfl | rfl |
      rfl | rfl | rfl | rfl <;> rfl

/-- Witness for C5 at a concrete record and key. -/
theorem C5_record_shape_witness :
    assocGet (scrapeData "" "" "" "" "" "" [] [] "" "" "") "Bredd (värde)" =
      some (optToPyVal (assocGet [] "Bredd (värde)")) :=
  (C5_record_shape "" "" "" "" "" "" [] [] "" "" "").2 "Bredd (värde)" (by decide)

/-- **C6**.  When the persisted cache file is present but fails to parse,
`load_cache` copies its bytes aside under `<name>.corrupt`, logs a warning,
and returns the empty cache — no exception escapes (the embedding is total
and takes the recovered branch); the `.corrupt` copy holds exactly the
original file contents. -/
theorem C6_corrupt_cache_recovery {α : Type _} (parse : String → Option (CacheMap α))
    (fs : FS) (filename content : String)
    (hfile : assocGet fs filename = some content)
    (hparse : parse content = Option.none) :
    load_cache parse fs filename =
      ([], assocSet fs (filename ++ ".corrupt") content,
        ["Cache file corrupted! Backup saved as " ++ filename ++
          ".corrupt. Starting with empty cache."]) ∧
    assocGet (load_cache parse fs filename).2.1 (filename ++ ".corrupt") = some content := by
  have h1 : load_cache parse fs filename =
      ([], assocSet fs (filename ++ ".corrupt") content,
        ["Cache file corrupted! Backup saved as " ++ filename ++
          ".corrupt. Starting with empty cache."]) := by
    simp [load_cache, hfile, hparse]
  refine ⟨h1, ?_⟩
  rw [h1]
  exact assocGet_assocSet_self fs (filename ++ ".corrupt") content

/-- Witness for C6: a one-file file system whose cache file holds
unparseable bytes. -/
theorem C6_corrupt_cache_recovery_witness :
    load_cache (fun _ => (Option.none : Option (CacheMap Nat)))
        [("product_cache.json", "garbage-bytes")] "product_cache.json" =
      ([], [("product_cache.json", "garbage-bytes"),
            ("product_cache.json.corrupt", "garbage-bytes")],
        ["Cache file corrupted! Backup saved as product_cache.json.corrupt. Starting with empty cache."]) ∧
    assocGet (load_cache (fun _ => (Option.none : Option (CacheMap Nat)))
        [("product_cache.json", "garbage-bytes")] "product_cache.json").2.1
      "product_cache.json.corrupt" = some "garbage-bytes" :=
  C6_corrupt_cache_recovery (fun _ => Option.none) [("product_cache.json", "garbage-bytes")]
    "product_cache.json" "garbage-bytes" (by decide) rfl

/-- **C7** (counterexample).  The claim covers the legacy
`product_cache.update_cache` as well, but that function has no empty-key
guard: called with key `""` on an empty persisted mapping it stores an entry
under `""`, so the persisted mapping is not what it was before the call. -/
theorem C7_legacy_empty_key_counterexample :
    ProductCache.update_cache ([] : CacheMap Nat) "" 7 "h1" =
      [("", ⟨"h1", 7⟩)] ∧ ([("", (⟨"h1", 7⟩ : CEntry Nat))] : CacheMap Nat) ≠ [] := by
  exact ⟨rfl, by decide⟩

/-- **C7** (amended).  `Cache.set` — and its wrapper
`scraper.cache.update_cache` — rejects the empty key with a warning and
leaves the persisted mapping unchanged; the legacy `product_cache.update_cache`
has no such guard and stores the entry under the empty key unconditionally. -/
theorem C7_empty_key_policy {α : Type _} (cache : CacheMap α) (v : α) (h : String) :
    Cache.set cache "" v h = (["Tried to cache an item with empty key!"], cache) ∧
    scraperCacheUpdate cache "" v h = (["Tried to cache an item with empty key!"], cache) ∧
    ProductCache.update_cache cache "" v h = assocSet cache "" ⟨h, v⟩ := by
  refine ⟨?_, ?_, rfl⟩ <;> simp [Cache.set, scraperCacheUpdate]

/-- **C8** (counterexample).  The claim says a record is flagged exactly when
its modified Z-score exceeds the threshold.  In the four-price sample the
record with value −1000 is flagged although its signed modified Z-score
(−681.58225) does not exceed 3.5: the code compares the absolute value. -/
theorem C8_signed_z_counterexample :
    ((3 : Nat), (-1000 : PyRat)) ∈
      detect_anomalies fourPriceSample "Pris inkl. moms (värde)" 3.5 ∧
    ¬ ((0.6745 : PyRat) *
        ((-1000) - anomalyMedian fourPriceSample "Pris inkl. moms (värde)") /
        anomalyMAD fourPriceSample "Pris inkl. moms (värde)" > 3.5) := by
  decide

/-- **C8** (amended).  `detect_anomalies` flags a record exactly when its
field parses numerically and the **absolute value** of the modified Z-score
`0.6745 * (x - median) / MAD` exceeds the threshold; with fewer than three
numeric values or `MAD = 0` nothing is flagged; and in the spec's scenario of
100 prices clustered near 500 with one value 500000, exactly the record with
value 500000 is flagged. -/
theorem C8_detect_anomalies_spec (products : List PyRecord) (field : String) (z : PyRat) :
    (∀ i v, (i, v) ∈ detect_anomalies products field z ↔
        (¬ (anomalyPairs products field).length < 3 ∧
          anomalyMAD products field ≠ 0 ∧
          (i, v) ∈ anomalyPairs products field ∧
          PyRat.abs ((0.6745 : PyRat) * (v - anomalyMedian products field) /
            anomalyMAD products field) > z)) ∧
    ((anomalyPairs products field).length < 3 → detect_anomalies products field z = []) ∧
    (anomalyMAD products field = 0 → detect_anomalies products field z = []) ∧
    detect_anomalies scenarioProducts "Pris inkl. moms (värde)" 3.5 =
      [(99, (500000 : PyRat))] := by
  refine ⟨?_, ?_, ?_, by decide⟩
  · intro i v
    by_cases h3 : (anomalyPairs products field).length < 3
    · simp [detect_anomalies, h3]
    · by_cases hm : anomalyMAD products field = 0
      · simp [detect_anomalies, h3, hm]
      · simp [detect_anomalies, h3, hm, List.mem_filter]
  · intro h3
    simp [detect_anomalies, h3]
  · intro hm
    by_cases h3 : (anomalyPairs products field).length < 3
    · simp [detect_anomalies, h3]
    · simp [detect_anomalies, h3, hm]

/-- Witness for C8: a single-record sample is below the size gate, and a
constant three-record sample has `MAD = 0`; both produce no flags. -/
theorem C8_detect_anomalies_spec_witness :
    detect_anomalies [[("Pris inkl. moms (värde)", PyVal.str "5")]]
        "Pris inkl. moms (värde)" 3.5 = [] ∧
    detect_anomalies [[("Pris inkl. moms (värde)", PyVal.str "5")],
        [("Pris inkl. moms (värde)", PyVal.str "5")],
        [("Pris inkl. moms (värde)", PyVal.str "5")]]
        "Pris inkl. moms (värde)" 3.5 = [] :=
  ⟨(C8_detect_anomalies_spec [[("Pris inkl. moms (värde)", PyVal.str "5")]]
      "Pris inkl. moms (värde)" 3.5).2.1 (by decide),
   (C8_detect_anomalies_spec [[("Pris inkl. moms (värde)", PyVal.str "5")],
      [("Pris inkl. moms (värde)", PyVal.str "5")],
      [("Pris inkl. moms (värde)", PyVal.str "5")]]
      "Pris inkl. moms (värde)" 3.5).2.2.1 (by decide)⟩

/-- **C9** (counterexample).  The claim's third law says
`parse_value_unit("") == ("", "")`; the code returns `(None, None)` on the
falsy empty input. -/
theorem C9_empty_input_counterexample :
    parse_value_unit "" ≠ (some "", some "") := by
  decide

/-- **C9** (amended).  `parse_value_unit("12 cm") = ("12", "cm")` and
`parse_value_unit("10,5L") = ("10.5", "L")` hold as claimed; the empty input
yields `(None, None)` rather than `("", "")`. -/
theorem C9_parse_value_unit_laws :
    parse_value_unit "12 cm" = (some "12", some "cm") ∧
    parse_value_unit "10,5L" = (some "10.5", some "L") ∧
    parse_value_unit "" = (Option.none, Option.none) := by
  decide

/-- **C10**.  A record whose four category fields are all falsy (absent,
`None`, or empty) always gets `"Missing category"` from `validate_product`,
and `scan_products` therefore routes it into the errors bucket — its key is
present there — and never into the valid output, whatever the other
validators say. -/
theorem C10_missing_category_routing (products : List PyRecord)
    (required_fields : List String) (anomaly_field : String) (anomaly_z : PyRat)
    (i : Nat) (hi : i < products.length)
    (hcat : truthyGet (products.getD i []) "Kategori (parent)" = false ∧
      truthyGet (products.getD i []) "Kategori (sub)" = false ∧
      truthyGet (products.getD i []) "Category" = false ∧
      truthyGet (products.getD i []) "category" = false) :
    "Missing category" ∈ validate_product (products.getD i []) required_fields ∧
    (∀ q ∈ (scan_products products required_fields anomaly_field anomaly_z).1,
      q ≠ products.getD i []) ∧
    (assocGet (scan_products products required_fields anomaly_field anomaly_z).2
      (pyKey (products.getD i []) i)).isSome := by
  have hmem := mem_validate_missing_category (products.getD i []) required_fields hcat
  have hne : validate_product (products.getD i []) required_fields ≠ [] := by
    intro h0
    rw [h0] at hmem
    exact absurd hmem (List.not_mem_nil _)
  refine ⟨hmem, ?_, ?_⟩
  · intro q hq heq
    have hq1 : q ∈ (scanPhase1 required_fields products 0 ([], [])).1 := by
      simpa [scan_products] using hq
    rcases scanPhase1_filtered_mem required_fields products 0 ([], []) q hq1 with h | h
    · exact absurd h (List.not_mem_nil q)
    · rw [heq] at h
      exact hne h
  · have h1 := scanPhase1_errs_key required_fields products i 0 ([], []) hi hne
    rw [Nat.zero_add] at h1
    simpa [scan_products] using
      outlierFold_isSome products anomaly_field
        (detect_anomalies products anomaly_field anomaly_z)
        (scanPhase1 required_fields products 0 ([], [])).2
        (pyKey (products.getD i []) i) h1

/-- Witness for C10: a concrete record passing every validator except the
category check is flagged and kept out of the valid output. -/
theorem C10_missing_category_routing_witness :
    "Missing category" ∈ validate_product recNoCat [] :=
  (C10_missing_category_routing [recNoCat] [] "Pris inkl. moms (värde)" 3.5 0
    (by decide) (by exact ⟨rfl, rfl, rfl, rfl⟩)).1
